import Mathlib

/-!
Shallow embedding of `homework.py` (a polling status bot) and proofs about it.

The program polls a remote API (`get_api_answer`), validates the payload
(`check_response`), formats a status message (`parse_status`), delivers it
(`send_message`) and runs an infinite polling loop (`main`) that deduplicates
error notifications with per-step boolean flags (`step_error_status`).

Python semantics notes that the embedding relies on:
* Python `dict`s are modelled as association lists with first-match lookup
  (keys are unique in the payloads considered, so this is the same map).
* `isinstance(x, int)` is true for Python `bool` values as well, since
  `bool` is a subclass of `int`; `isInt` reflects this.
* `except requests.RequestException():` in `get_api_answer` evaluates the
  handler expression to an *instance* (note the call parentheses).  When an
  exception is raised inside the `try`, CPython attempts to match it
  against that instance and raises
  `TypeError: catching classes that do not inherit from BaseException is not allowed`.
  Hence every failure path of `get_api_answer` (transport failure from
  `requests.get` as well as the explicitly raised `requests.HTTPError` for a
  non-2xx status) surfaces to the caller as this `TypeError`.
* `str()` of an exception is its message; for `KeyError` the argument is
  rendered with `repr`, so quotes appear around the message.
-/

/-- A decoded JSON-ish Python value, as produced by `response.json()`. -/
inductive JValue where
  | str (s : String)
  | int (n : Int)
  | bool (b : Bool)
  | null
  | list (xs : List JValue)
  | dict (kvs : List (String × JValue))

/-- Python exception values relevant to the program, carrying their message. -/
inductive PyErr where
  | typeError (msg : String)
  | keyError (msg : String)
  | httpError (msg : String)
  | requestException (msg : String)
  | assertionError
deriving DecidableEq

/-- The ASCII single-quote character (code 39) that `repr` puts around a
`KeyError` argument. -/
def keyErrQuote : String := String.mk [Char.ofNat 39]

/-- `str(error)` for the exceptions above.  `str` of a `KeyError` renders the
argument with `repr`, hence the surrounding quotes; `str(AssertionError())`
is the empty string. -/
def pyErrStr : PyErr → String
  | .typeError m => m
  | .keyError m => keyErrQuote ++ m ++ keyErrQuote
  | .httpError m => m
  | .requestException m => m
  | .assertionError => ""

/-- First-match association-list lookup, the model of Python `d[k]` /
`k in d` on the (unique-key) dicts that appear here. -/
def dlookup (kvs : List (String × JValue)) (k : String) : Option JValue :=
  match kvs.find? (fun p => p.1 == k) with
  | some p => some p.2
  | none => none

/-- `isinstance(v, dict)`. -/
def JValue.isDict : JValue → Bool
  | .dict _ => true
  | _ => false

/-- `isinstance(v, int)`.  True for `bool` too: Python `bool` subclasses
`int`. -/
def JValue.isInt : JValue → Bool
  | .int _ => true
  | .bool _ => true
  | _ => false

/-- `str(v)` as used by f-string interpolation.  Scalars are rendered as
Python renders them; container values never reach an f-string in the
program (only validated homework names do), so their rendering is
abbreviated. -/
def jvalueStr : JValue → String
  | .str s => s
  | .int n => toString n
  | .bool true => "True"
  | .bool false => "False"
  | .null => "None"
  | .list _ => "[...]"
  | .dict _ => "dict"

/-- `HOMEWORK_ATTRIBUTES` from `homework.py`. -/
def HOMEWORK_ATTRIBUTES : List String :=
  ["id", "status", "homework_name", "reviewer_comment", "date_updated",
   "lesson_name"]

/-- `HOMEWORK_VERDICTS` from `homework.py`: the fixed 3-entry verdict
table. -/
def HOMEWORK_VERDICTS : List (String × String) :=
  [("approved", "Работа проверена: ревьюеру всё понравилось. Ура!"),
   ("reviewing", "Работа взята на проверку ревьюером."),
   ("rejected", "Работа проверена: у ревьюера есть замечания.")]

/-- `status in HOMEWORK_VERDICTS` followed by `HOMEWORK_VERDICTS[status]`:
membership of an arbitrary value among the (string) keys of the verdict
table. -/
def verdictLookup : JValue → Option String
  | .str s =>
      match HOMEWORK_VERDICTS.find? (fun p => p.1 == s) with
      | some p => some p.2
      | none => none
  | _ => none

/-- What one fetch attempt of `requests.get` yields before `get_api_answer`
interprets it: either the transport layer fails (`requests.RequestException`
raised by `requests.get`) or a response arrives with an HTTP status code
and a decoded JSON body. -/
inductive FetchOutcome where
  | transportFail (msg : String)
  | response (statusCode : Nat) (body : JValue)

/-- `get_api_answer` (homework.py lines 45-61).  On success it returns the
decoded body when that body is a dict and Python `None` (here `.null`)
otherwise (the function falls off the end).  Any exception inside the `try`
— the transport failure or the raised `HTTPError` for a non-200 status —
hits `except requests.RequestException():`, whose matcher is an *instance*,
so CPython raises a `TypeError` instead (see the module comment);
`exceptInstanceMsg` is the message of that `TypeError`. -/
def exceptInstanceMsg : String :=
  "catching classes that do not inherit from BaseException is not allowed"

/-- Body of `get_api_answer`, built on `exceptInstanceMsg` above. -/
def get_api_answer (outcome : FetchOutcome) : Except PyErr JValue :=
  let tryBody : Except PyErr JValue :=
    match outcome with
    | .transportFail m => .error (.requestException m)
    | .response statusCode body =>
        if statusCode ≠ 200 then .error (.httpError "Эндпоинт недоступен.")
        else if body.isDict then .ok body
        else .ok .null
  match tryBody with
  | .ok v => .ok v
  | .error _ => .error (.typeError exceptInstanceMsg)

/-- The per-homework checks of the `for` loop of `check_response`, in program
order: for each element, first `isinstance(homework, dict)`, then each of
its keys must belong to `HOMEWORK_ATTRIBUTES`.  Returns the first error
raised, if any. -/
def homeworkChecks : List JValue → Option PyErr
  | [] => none
  | hw :: rest =>
      match hw with
      | .dict kvs =>
          if kvs.all (fun p => HOMEWORK_ATTRIBUTES.contains p.1) then
            homeworkChecks rest
          else
            some (.keyError
              "Атрибутивный состав ответа не соответствует ожиданиям.")
      | _ => some (.typeError "Домашнее задание должно иметь тип dict.")

/-- `check_response` (homework.py lines 64-91).  Raises `TypeError` when the
response is not a dict, `KeyError` when `homeworks` or `current_date` is
absent, `TypeError` when `homeworks` is not a list or `current_date` is not
an int; returns `None` for an empty homeworks list, and otherwise checks
every element (dict-ness and key set) and returns `homeworks[0]`. -/
def check_response (response : JValue) : Except PyErr (Option JValue) :=
  match response with
  | .dict kvs =>
      match dlookup kvs "homeworks", dlookup kvs "current_date" with
      | some hwv, some cdv =>
          match hwv, cdv.isInt with
          | .list [], true => .ok none
          | .list (h :: t), true =>
              match homeworkChecks (h :: t) with
              | some e => .error e
              | none => .ok (some h)
          | _, _ =>
              .error (.typeError
                "Значения ключей response имеют неправильный тип.")
      | _, _ => .error (.keyError "Нехватает ключа в response.")
  | _ => .error (.typeError "Response должен быть dict.")

/-- `parse_status` (homework.py lines 94-109).  Requires the `status` and
`homework_name` keys, looks the status up in `HOMEWORK_VERDICTS` and
formats the fixed message template.  The program only ever applies it to
elements `check_response` has validated as dicts; on a non-dict the `in`
operator of the membership test fails. -/
def parse_status (homework : JValue) : Except PyErr String :=
  match homework with
  | .dict kvs =>
      match dlookup kvs "status", dlookup kvs "homework_name" with
      | some stv, some hn =>
          match verdictLookup stv with
          | some verdict =>
              .ok ("Изменился статус проверки работы \"" ++ jvalueStr hn
                   ++ "\". " ++ verdict)
          | none => .error (.keyError "Недокументированный статус домашки.")
      | _, _ => .error (.keyError "Атрибуты отсутствует в homework.")
  | _ =>
      .error (.typeError "argument of type is not iterable")

/-- `send_message` (homework.py lines 112-123).  Delivery is attempted; a
failure of the underlying bot call is caught *inside* the function and only
logged — nothing propagates to the caller.  The returned list is the error
log lines the call produced (`[]` on success). -/
def send_message (sendError : Option String) (message : String)
    : List String :=
  match sendError with
  | none => []
  | some e =>
      ["Произошла ошибка при отправке сообщения в Телеграмм: " ++ e]

/-- The mutable state of the polling loop of `main`: the `timestamp` passed as
`from_date` to every fetch (initialised to `0`, line 129, never
reassigned) and the three per-step flags of `step_error_status`
(`step_1` fetch, `step_2` validate, `step_3` extract). `True` means the
quiet state: the next failure at that step notifies. -/
structure LoopState where
  timestamp : Int
  step1 : Bool
  step2 : Bool
  step3 : Bool
deriving DecidableEq

/-- `timestamp = 0` and every flag `True`, as set up before the loop. -/
def initState : LoopState :=
  { timestamp := 0, step1 := true, step2 := true, step3 := true }

/-- The environment of one cycle: what the fetch attempt yields, and
whether the underlying bot delivery call fails inside `send_message` (at most one
message is sent per cycle, so a single outcome suffices). -/
structure CycleInput where
  fetch : FetchOutcome
  sendError : Option String

/-- Observable result of one cycle: the successor loop state, the messages
handed to `send_message` in call order, the delivery-error log lines
`send_message` produced, and the `from_date` value the fetch used. -/
structure CycleResult where
  state : LoopState
  sent : List String
  notifyErrors : List String
  fromDate : Int

/-- The message `main` builds for a step-1 failure, by `except` branch:
`requests.HTTPError`, then `requests.RequestException`, then the generic
`Exception` handler (the branch a `TypeError` lands in). -/
def step1Msg (e : PyErr) : String :=
  match e with
  | .httpError _ => "Эндпоинт недоступен: " ++ pyErrStr e ++ "."
  | .requestException _ =>
      "Другие сбои при запросе к эндпоинту: " ++ pyErrStr e ++ "."
  | _ => "Другие сбои: " ++ pyErrStr e ++ "."

/-- One iteration of the `while` loop of `main` (homework.py lines 157-227).
Step 1 fetches with `from_date = timestamp`; on failure the error message
is sent only when `step_1` is `True`, which is then cleared.  On fetch
success `step_1` is reset to `True` and step 2 validates; `check_response`
returning `None` (empty homeworks) skips to the next cycle *without*
touching `step_2`; a validation error notifies gated by `step_2`.  Step 3
formats the status of the first homework and sends it unconditionally (the
delivery outcome is ignored by the caller), then sets `step_3`; a
`parse_status` error notifies gated by `step_3`. -/
def cycleStep (st : LoopState) (i : CycleInput) : CycleResult :=
  let fromDate := st.timestamp
  match get_api_answer i.fetch with
  | .error e =>
      let message := step1Msg e
      if st.step1 then
        { state := { st with step1 := false },
          sent := [message],
          notifyErrors := send_message i.sendError message,
          fromDate := fromDate }
      else
        { state := st, sent := [], notifyErrors := [], fromDate := fromDate }
  | .ok answer =>
      let st1 := { st with step1 := true }
      match check_response answer with
      | .ok none =>
          { state := st1, sent := [], notifyErrors := [],
            fromDate := fromDate }
      | .ok (some hw) =>
          let st2 := { st1 with step2 := true }
          match parse_status hw with
          | .ok message =>
              { state := { st2 with step3 := true },
                sent := [message],
                notifyErrors := send_message i.sendError message,
                fromDate := fromDate }
          | .error e =>
              let message :=
                "Неожиданный статус домашней работы, обнаруженный в ответе API "
                  ++ pyErrStr e
              if st2.step3 then
                { state := { st2 with step3 := false },
                  sent := [message],
                  notifyErrors := send_message i.sendError message,
                  fromDate := fromDate }
              else
                { state := st2, sent := [], notifyErrors := [],
                  fromDate := fromDate }
      | .error e =>
          let message := "Нарушение структуры ответа API: " ++ pyErrStr e ++ "."
          if st1.step2 then
            { state := { st1 with step2 := false },
              sent := [message],
              notifyErrors := send_message i.sendError message,
              fromDate := fromDate }
          else
            { state := st1, sent := [], notifyErrors := [],
              fromDate := fromDate }

/-- The per-cycle results of running the loop over a list of cycle
environments, in order. -/
def runTrace : LoopState → List CycleInput → List CycleResult
  | _, [] => []
  | st, i :: rest =>
      let r := cycleStep st i
      r :: runTrace r.state rest

/-- The loop state after running over a list of cycle environments. -/
def runState : LoopState → List CycleInput → LoopState
  | st, [] => st
  | st, i :: rest => runState (cycleStep st i).state rest

/-- All messages handed to `send_message` over a run, in order. -/
def sentAll : LoopState → List CycleInput → List String
  | _, [] => []
  | st, i :: rest => (cycleStep st i).sent ++ sentAll (cycleStep st i).state rest

/-- The three startup configuration values, each possibly absent
(`os.getenv` returning `None`). -/
structure Config where
  practicumToken : Option String
  telegramToken : Option String
  telegramChatId : Option String

/-- `check_tokens` (homework.py lines 35-43): three `assert`s, failing with
`AssertionError` on the first absent value. -/
def check_tokens (c : Config) : Except PyErr Unit :=
  if c.practicumToken.isNone then .error .assertionError
  else if c.telegramToken.isNone then .error .assertionError
  else if c.telegramChatId.isNone then .error .assertionError
  else .ok ()

/-- Outcome of the pre-loop step 0 of `main` (lines 145-155): the `step_0` flag
and the critical log lines emitted. -/
structure StartupResult where
  step0 : Bool
  criticalLog : List String
deriving DecidableEq

/-- Step 0 of `main`: `check_tokens` inside `try`; on any exception the
condition is logged at critical level (the `send_message` call is commented
out in the source) and `step_0` is set to `False`. -/
def startup (c : Config) : StartupResult :=
  match check_tokens c with
  | .ok _ => { step0 := true, criticalLog := [] }
  | .error e =>
      { step0 := false,
        criticalLog :=
          ["Отсутствие обязательных переменных окружения во время запуска бота: "
            ++ pyErrStr e] }

/-- The process exit status of `main` as a function of the configuration:
`while step_error_status[step_0] is True` never runs when `step_0` is
`False`, so `main` returns normally and the interpreter exits with status
`0` (`some 0`); with all values present the loop never terminates
(`none`). -/
def mainExit (c : Config) : Option Nat :=
  if (startup c).step0 then none else some 0

/-- A homework record with the two fields `parse_status` reads. -/
def hwRec (name status : String) : JValue :=
  .dict [("homework_name", .str name), ("status", .str status)]

/-- A well-shaped payload carrying the given homeworks list. -/
def payloadOf (hws : List JValue) : JValue :=
  .dict [("homeworks", .list hws), ("current_date", .int 0)]

/-- A cycle whose fetch succeeds with the given homeworks and whose
delivery succeeds. -/
def inputOf (hws : List JValue) : CycleInput :=
  { fetch := .response 200 (payloadOf hws), sendError := none }

/-- A cycle whose fetch fails at the transport layer. -/
def badFetchInput : CycleInput :=
  { fetch := .transportFail "Connection refused", sendError := none }

/-- A cycle that fetches a well-shaped payload with no homeworks. -/
def emptyOkInput : CycleInput := inputOf []

/-- A cycle that fetches a payload whose `homeworks` value is not a list,
so `check_response` raises. -/
def badSchemaInput : CycleInput :=
  { fetch := .response 200 (.dict [("homeworks", .int 1),
                                   ("current_date", .int 0)]),
    sendError := none }

/-- A cycle with one valid homework whose message delivery fails. -/
def deliveryFailInput : CycleInput :=
  { fetch := .response 200 (payloadOf [hwRec "hw" "approved"]),
    sendError := some "Telegram API error" }

/-- `True` exactly on the `.ok` constructor. -/
def exceptOk {α : Type} : Except PyErr α → Bool
  | .ok _ => true
  | .error _ => false

/-- On a well-shaped non-empty payload, `check_response` reduces to the
per-homework checks and then yields the first element. -/
theorem check_response_payloadOf (h : JValue) (t : List JValue) :
    check_response (payloadOf (h :: t)) =
      (match homeworkChecks (h :: t) with
       | some e => .error e
       | none => .ok (some h)) := rfl

/-- On a well-shaped empty payload, `check_response` returns `None`. -/
theorem check_response_payloadOf_nil : check_response (payloadOf []) = .ok none :=
  rfl

/-- A successful cycle: fetch succeeds with a well-shaped non-empty payload
whose homeworks all pass the checks and whose first homework parses.  The
message for `homeworks[0]` is sent unconditionally and every flag ends
`True`; the delivery outcome only contributes log lines. -/
theorem cycle_success (st : LoopState) (se : Option String) (h : JValue)
    (t : List JValue) (m : String)
    (hok : homeworkChecks (h :: t) = none) (hm : parse_status h = .ok m) :
    cycleStep st { fetch := .response 200 (payloadOf (h :: t)), sendError := se } =
      { state := { st with step1 := true, step2 := true, step3 := true },
        sent := [m],
        notifyErrors := send_message se m,
        fromDate := st.timestamp } := by
  have e0 : get_api_answer (.response 200 (payloadOf (h :: t)))
      = .ok (payloadOf (h :: t)) := rfl
  have e1 : check_response (payloadOf (h :: t)) = .ok (some h) := by
    rw [check_response_payloadOf, hok]
  simp only [cycleStep, e0, e1, hm]

/-- The message the generic `except Exception` branch of step 1 builds for
the `TypeError` that every fetch failure surfaces as. -/
def fetchFailMsg : String := "Другие сбои: " ++ exceptInstanceMsg ++ "."

/-- A transport-failure cycle: notifies once when `step_1` is quiet
(`True`) and arms the flag; is silent otherwise.  No other state
changes. -/
theorem cycle_fetchFail (st : LoopState) (se : Option String) (msg : String) :
    cycleStep st { fetch := .transportFail msg, sendError := se } =
      if st.step1 then
        { state := { st with step1 := false },
          sent := [fetchFailMsg],
          notifyErrors := send_message se fetchFailMsg,
          fromDate := st.timestamp }
      else
        { state := st, sent := [], notifyErrors := [],
          fromDate := st.timestamp } := rfl

/-- An empty-homeworks cycle: fetch success resets `step_1`, validation
succeeds with `None`, the loop continues without touching `step_2` or
`step_3` and nothing is sent. -/
theorem cycle_empty (st : LoopState) (se : Option String) :
    cycleStep st { fetch := .response 200 (payloadOf []), sendError := se } =
      { state := { st with step1 := true }, sent := [], notifyErrors := [],
        fromDate := st.timestamp } := rfl

/-- The message sent for the `badSchemaInput` validation failure. -/
def schemaFailMsg : String :=
  "Нарушение структуры ответа API: Значения ключей response имеют неправильный тип.."

/-- A schema-failure cycle: fetch success resets `step_1`; the validation
error notifies once when `step_2` is quiet and arms it. -/
theorem cycle_badSchema (st : LoopState) :
    cycleStep st badSchemaInput =
      if st.step2 then
        { state := { st with step1 := true, step2 := false },
          sent := [schemaFailMsg],
          notifyErrors := [],
          fromDate := st.timestamp }
      else
        { state := { st with step1 := true }, sent := [], notifyErrors := [],
          fromDate := st.timestamp } := rfl

/-- A cycle uses the current `timestamp` as `from_date` and never changes
it: only the three flags mutate. -/
theorem cycleStep_timestamp (st : LoopState) (i : CycleInput) :
    (cycleStep st i).state.timestamp = st.timestamp ∧
      (cycleStep st i).fromDate = st.timestamp := by
  cases hg : get_api_answer i.fetch with
  | error e => by_cases h1 : st.step1 <;> simp [cycleStep, hg, h1]
  | ok a =>
    cases hc : check_response a with
    | error e => by_cases h2 : st.step2 <;> simp [cycleStep, hg, hc, h2]
    | ok o =>
      cases o with
      | none => simp [cycleStep, hg, hc]
      | some hw =>
        cases hp : parse_status hw with
        | ok m => simp [cycleStep, hg, hc, hp]
        | error e => by_cases h3 : st.step3 <;> simp [cycleStep, hg, hc, hp, h3]

/-- `sentAll` splits over list concatenation through `runState`. -/
theorem sentAll_append (st : LoopState) (xs ys : List CycleInput) :
    sentAll st (xs ++ ys) = sentAll st xs ++ sentAll (runState st xs) ys := by
  induction xs generalizing st with
  | nil => rfl
  | cons i rest ih =>
      simp only [List.cons_append, sentAll, runState, List.append_eq, ih, List.append_assoc]

/-- While `step_1` is armed (`False`), further transport-failure cycles
send nothing and leave the state unchanged. -/
theorem sentAll_fetchFail_armed (st : LoopState) (hq : st.step1 = false)
    (k : Nat) :
    sentAll st (List.replicate k badFetchInput) = [] ∧
      runState st (List.replicate k badFetchInput) = st := by
  induction k with
  | zero => exact ⟨rfl, rfl⟩
  | succ n ih =>
      have hstep : cycleStep st badFetchInput =
          { state := st, sent := [], notifyErrors := [],
            fromDate := st.timestamp } := by
        rw [show badFetchInput =
              { fetch := .transportFail "Connection refused",
                sendError := none } from rfl,
            cycle_fetchFail, hq]
        simp
      simp only [List.replicate_succ, sentAll, runState, hstep, ih]
      simp

/-- The message `parse_status` produces for `hwRec "hw" "approved"`. -/
def approvedHwMsg : String :=
  "Изменился статус проверки работы \"hw\". Работа проверена: ревьюеру всё понравилось. Ура!"

/-- C1, counterexample: a cycle whose payload holds two fresh entities
(both count as changed — there is no recorded state at all) sends exactly
one notification, for the first homework only; the second is dropped, so
the claimed one-notification-per-changed-entity behaviour fails. -/
theorem c1_counterexample :
    (cycleStep initState
        (inputOf [hwRec "hw one" "approved", hwRec "hw two" "rejected"])).sent =
      ["Изменился статус проверки работы \"hw one\". Работа проверена: ревьюеру всё понравилось. Ура!"] :=
  rfl

/-- C1, amended: in any cycle whose payload carries two or more valid
entities, only the first entity in the payload is reported;
`check_response` returns `homeworks[0]` alone and all the rest are
dropped. -/
theorem c1_only_first_reported (st : LoopState) (h1 h2 : JValue)
    (t : List JValue) (m : String)
    (hok : homeworkChecks (h1 :: h2 :: t) = none)
    (hm : parse_status h1 = .ok m) :
    (cycleStep st (inputOf (h1 :: h2 :: t))).sent = [m] := by
  have hstep := cycle_success st none h1 (h2 :: t) m hok hm
  rw [show inputOf (h1 :: h2 :: t) =
        { fetch := .response 200 (payloadOf (h1 :: h2 :: t)),
          sendError := none }
      from rfl, hstep]

/-- C1, witness for the amended theorem at a concrete three-entity
payload: only the first of the three is reported. -/
theorem c1_witness :
    (cycleStep initState
        (inputOf [hwRec "A" "reviewing", hwRec "B" "approved",
                  hwRec "C" "rejected"])).sent =
      ["Изменился статус проверки работы \"A\". Работа взята на проверку ревьюером."] :=
  c1_only_first_reported initState (hwRec "A" "reviewing")
    (hwRec "B" "approved") [hwRec "C" "rejected"] _ rfl rfl

/-- C2, counterexample: processing the identical one-entity payload in two
consecutive cycles sends the same notification both times — the second
cycle does not go quiet, because no per-entity status is ever recorded. -/
theorem c2_counterexample :
    sentAll initState
        [inputOf [hwRec "hw" "approved"], inputOf [hwRec "hw" "approved"]] =
      [approvedHwMsg, approvedHwMsg] := rfl

/-- C2, amended: the loop performs no change detection at all: every cycle
whose payload validates to a non-empty homeworks list sends the message for
the first homework, whatever was seen before, so `n` consecutive cycles
over the same unchanged payload send `n` notifications. -/
theorem c2_no_change_detection (st : LoopState) (n : Nat) (h : JValue)
    (t : List JValue) (m : String)
    (hok : homeworkChecks (h :: t) = none) (hm : parse_status h = .ok m) :
    sentAll st (List.replicate n (inputOf (h :: t))) = List.replicate n m := by
  induction n generalizing st with
  | zero => rfl
  | succ k ih =>
      simp only [List.replicate_succ, sentAll]
      rw [show inputOf (h :: t) =
            { fetch := .response 200 (payloadOf (h :: t)), sendError := none }
          from rfl, cycle_success st none h t m hok hm]
      rw [show ({ fetch := FetchOutcome.response 200 (payloadOf (h :: t)),
                  sendError := none } : CycleInput) = inputOf (h :: t)
          from rfl, ih]
      rfl

/-- C2, witness for the amended theorem: two identical cycles, two
notifications. -/
theorem c2_witness :
    sentAll initState (List.replicate 2 (inputOf [hwRec "hw" "approved"])) =
      List.replicate 2 approvedHwMsg :=
  c2_no_change_detection initState 2 (hwRec "hw" "approved") [] approvedHwMsg
    rfl rfl

/-- The loop state after a first fetch failure: `step_1` armed, all else
as at start. -/
def armedFetchSt : LoopState :=
  { timestamp := 0, step1 := false, step2 := true, step3 := true }

/-- C3: a fresh run hitting the same transport failure in `N ≥ 1`
consecutive cycles sends exactly one error notification in total; after a
successful cycle (here one with an empty homeworks payload) a renewed
transport failure is notified a second time. -/
theorem c3_single_outage_notification (N : Nat) (hN : 1 ≤ N) :
    (sentAll initState (List.replicate N badFetchInput)).length = 1 ∧
      (sentAll initState
          (List.replicate N badFetchInput ++ [emptyOkInput, badFetchInput])).length = 2 := by
  obtain ⟨k, rfl⟩ : ∃ k, N = k + 1 := ⟨N - 1, by omega⟩
  have hfirst : cycleStep initState badFetchInput =
      { state := armedFetchSt, sent := [fetchFailMsg], notifyErrors := [],
        fromDate := 0 } := rfl
  have hrest := sentAll_fetchFail_armed armedFetchSt rfl k
  constructor
  · simp only [List.replicate_succ, sentAll, hfirst, hrest.1]
    rfl
  · rw [sentAll_append]
    simp only [List.replicate_succ, sentAll, runState, hfirst, hrest.1, hrest.2]
    simp only [List.length_append]
    rfl

/-- C3, witness at `N = 3`. -/
theorem c3_witness :
    (sentAll initState (List.replicate 3 badFetchInput)).length = 1 ∧
      (sentAll initState
          (List.replicate 3 badFetchInput ++ [emptyOkInput, badFetchInput])).length = 2 :=
  c3_single_outage_notification 3 (by omega)

/-- C4: any record carrying `status = "rejected"` and a name produces
exactly the fixed template — the prefix, the quoted name, and the verdict
text looked up for `rejected` in the fixed 3-entry table. -/
theorem c4_rejected_message (name : String) (kvs : List (String × JValue))
    (hst : dlookup kvs "status" = some (.str "rejected"))
    (hname : dlookup kvs "homework_name" = some (.str name)) :
    parse_status (.dict kvs) =
      .ok ("Изменился статус проверки работы \"" ++ name ++ "\". "
           ++ "Работа проверена: у ревьюера есть замечания.") := by
  simp only [parse_status, hst, hname]
  rfl

/-- C4, witness at the concrete entity name `X`. -/
theorem c4_witness :
    parse_status (hwRec "X" "rejected") =
      .ok ("Изменился статус проверки работы \"" ++ "X" ++ "\". "
           ++ "Работа проверена: у ревьюера есть замечания.") :=
  c4_rejected_message "X"
    [("homework_name", .str "X"), ("status", .str "rejected")] rfl rfl

/-- Modelled from the spec: one element of `homeworks` is acceptable when
it is a mapping whose key set stays inside `HOMEWORK_ATTRIBUTES`. -/
def homeworkOkB (hw : JValue) : Bool :=
  match hw with
  | .dict kvs => kvs.all (fun p => HOMEWORK_ATTRIBUTES.contains p.1)
  | _ => false

/-- Modelled from the spec (amended): the payloads on which validation
succeeds — a mapping that carries a `homeworks` list and an integer
`current_date`, every list element acceptable. -/
def validB (r : JValue) : Bool :=
  match r with
  | .dict kvs =>
      match dlookup kvs "homeworks", dlookup kvs "current_date" with
      | some (.list hws), some cd => cd.isInt && hws.all homeworkOkB
      | _, _ => false
  | _ => false

/-- The value a successful validation hands to the next stage: the first
element of `homeworks`, or nothing when the list is empty. -/
def firstHomework (r : JValue) : Option JValue :=
  match r with
  | .dict kvs =>
      match dlookup kvs "homeworks" with
      | some (.list (h :: _)) => some h
      | _ => none
  | _ => none

/-- The element-wise loop of `check_response` accepts a list exactly when
every element is acceptable. -/
theorem homeworkChecks_none_iff (l : List JValue) :
    homeworkChecks l = none ↔ l.all homeworkOkB = true := by
  induction l with
  | nil => simp [homeworkChecks]
  | cons hw rest ih =>
      cases hw with
      | dict kvs =>
          simp only [homeworkChecks, homeworkOkB, List.all_cons]
          by_cases hk : (kvs.all fun p => HOMEWORK_ATTRIBUTES.contains p.1) = true
          · rw [if_pos hk, hk]
            simpa using ih
          · rw [if_neg hk]
            simp only [Bool.not_eq_true] at hk
            rw [hk]
            simp
      | str s => simp [homeworkChecks, homeworkOkB]
      | int n => simp [homeworkChecks, homeworkOkB]
      | bool b => simp [homeworkChecks, homeworkOkB]
      | null => simp [homeworkChecks, homeworkOkB]
      | list xs => simp [homeworkChecks, homeworkOkB]

/-- C5, counterexample: a mapping whose `homeworks` is a well-formed
(empty) list but which lacks `current_date` — none of the five failure
conditions the claim lists — is rejected with a `KeyError`, against the
claimed characterization. -/
theorem c5_counterexample :
    check_response (.dict [("homeworks", .list [])]) =
      .error (.keyError "Нехватает ключа в response.") := rfl

/-- C5, amended: validation succeeds exactly when the payload is a mapping
with a `homeworks` list and an integer `current_date` whose elements are
all mappings with keys inside the documented attribute set; and on success
it returns not the whole validated structure but `homeworks[0]` (nothing
when the list is empty).  The embedding is a total function, so validation
is total and side-effect free. -/
theorem c5_validator_characterization (r : JValue) :
    exceptOk (check_response r) = validB r ∧
      (validB r = true → check_response r = .ok (firstHomework r)) := by
  cases r with
  | str s => exact ⟨rfl, fun hv => by simp [validB] at hv⟩
  | int n => exact ⟨rfl, fun hv => by simp [validB] at hv⟩
  | bool b => exact ⟨rfl, fun hv => by simp [validB] at hv⟩
  | null => exact ⟨rfl, fun hv => by simp [validB] at hv⟩
  | list xs => exact ⟨rfl, fun hv => by simp [validB] at hv⟩
  | dict kvs =>
      rcases hh : dlookup kvs "homeworks" with _ | hwv
      · refine ⟨by simp [check_response, validB, exceptOk, hh], fun hv => ?_⟩
        simp [validB, hh] at hv
      · rcases hc : dlookup kvs "current_date" with _ | cdv
        · refine ⟨by simp [check_response, validB, exceptOk, hh, hc],
            fun hv => ?_⟩
          simp [validB, hh, hc] at hv
        · cases hwv with
          | str s =>
              exact ⟨by simp [check_response, validB, exceptOk, hh, hc],
                fun hv => by simp [validB, hh, hc] at hv⟩
          | int n =>
              exact ⟨by simp [check_response, validB, exceptOk, hh, hc],
                fun hv => by simp [validB, hh, hc] at hv⟩
          | bool b =>
              exact ⟨by simp [check_response, validB, exceptOk, hh, hc],
                fun hv => by simp [validB, hh, hc] at hv⟩
          | null =>
              exact ⟨by simp [check_response, validB, exceptOk, hh, hc],
                fun hv => by simp [validB, hh, hc] at hv⟩
          | dict kvs2 =>
              exact ⟨by simp [check_response, validB, exceptOk, hh, hc],
                fun hv => by simp [validB, hh, hc] at hv⟩
          | list hws =>
              cases hws with
              | nil =>
                  cases hci : cdv.isInt with
                  | false =>
                      refine ⟨?_, fun hv => ?_⟩
                      · simp [check_response, validB, exceptOk, hh, hc, hci]
                      · simp [validB, hh, hc, hci] at hv
                  | true =>
                      refine ⟨?_, fun hv => ?_⟩
                      · simp [check_response, validB, exceptOk, hh, hc, hci]
                      · simp [check_response, firstHomework, hh, hc, hci]
              | cons h t =>
                  cases hci : cdv.isInt with
                  | false =>
                      refine ⟨?_, fun hv => ?_⟩
                      · simp [check_response, validB, exceptOk, hh, hc, hci]
                      · simp [validB, hh, hc, hci] at hv
                  | true =>
                      rcases hhc : homeworkChecks (h :: t) with _ | e
                      · have hall := (homeworkChecks_none_iff (h :: t)).mp hhc
                        refine ⟨?_, fun hv => ?_⟩
                        · simp [check_response, validB, exceptOk, hh, hc, hci,
                            hhc, hall]
                        · simp [check_response, firstHomework, hh, hc, hci, hhc]
                      · have hall : (h :: t).all homeworkOkB = false := by
                          rcases hb : (h :: t).all homeworkOkB with _ | _
                          · rfl
                          · rw [(homeworkChecks_none_iff (h :: t)).mpr hb]
                              at hhc
                            cases hhc
                        refine ⟨?_, fun hv => ?_⟩
                        · simp [check_response, validB, exceptOk, hh, hc, hci,
                            hhc, hall]
                        · simp [validB, hh, hc, hci, hall] at hv

/-- C5, witness: at a concrete valid payload the characterization applies
and the success value is the first homework. -/
theorem c5_witness :
    exceptOk (check_response (payloadOf [hwRec "X" "rejected"])) =
        validB (payloadOf [hwRec "X" "rejected"]) ∧
      check_response (payloadOf [hwRec "X" "rejected"]) =
        .ok (firstHomework (payloadOf [hwRec "X" "rejected"])) :=
  ⟨(c5_validator_characterization (payloadOf [hwRec "X" "rejected"])).1,
   (c5_validator_characterization (payloadOf [hwRec "X" "rejected"])).2 rfl⟩

/-- C6: the code does not keep the two fetch-failure kinds apart — a
transport failure and a non-2xx HTTP status both surface from
`get_api_answer` as the *same* `TypeError` (the invalid
`except requests.RequestException():` instance matcher), so the cycle
boundary cannot tell them apart and the dedicated `HTTPError` and
`RequestException` handlers in `main` are unreachable. -/
theorem c6_failure_kinds_conflated :
    get_api_answer (.transportFail "Connection refused") =
        .error (.typeError exceptInstanceMsg) ∧
      get_api_answer (.response 500 (payloadOf [hwRec "hw" "approved"])) =
        .error (.typeError exceptInstanceMsg) := ⟨rfl, rfl⟩

/-- C7, counterexample: with `PRACTICUM_TOKEN` missing the loop is never
entered, but `main` then returns normally, so the interpreter exits with
status `0`, not the claimed non-zero status. -/
theorem c7_counterexample :
    (startup { practicumToken := none, telegramToken := some "t",
               telegramChatId := some "c" }).step0 = false ∧
      mainExit { practicumToken := none, telegramToken := some "t",
                 telegramChatId := some "c" } = some 0 := ⟨rfl, rfl⟩

/-- C7, amended: a missing configuration value is detected once before the
loop, reported through a critical log line, and the loop is never entered;
the process then terminates normally with exit status `0`. -/
theorem c7_missing_config (c : Config)
    (h : exceptOk (check_tokens c) = false) :
    (startup c).step0 = false ∧ (startup c).criticalLog ≠ [] ∧
      mainExit c = some 0 := by
  rcases hck : check_tokens c with e | u
  · refine ⟨by simp [startup, hck], by simp [startup, hck], ?_⟩
    simp [mainExit, startup, hck]
  · rw [hck] at h
    cases h

/-- C7, witness: all three values missing. -/
theorem c7_witness :
    (startup { practicumToken := none, telegramToken := none,
               telegramChatId := none }).step0 = false ∧
      (startup { practicumToken := none, telegramToken := none,
                 telegramChatId := none }).criticalLog ≠ [] ∧
      mainExit { practicumToken := none, telegramToken := none,
                 telegramChatId := none } = some 0 :=
  c7_missing_config
    { practicumToken := none, telegramToken := none, telegramChatId := none }
    rfl

/-- C8, counterexample: in a cycle whose delivery fails, the loop state is
exactly the all-quiet success state (no flag arms, no ErrorState event at
any tag), the only send attempt is the original status message (no error
notification), and the failure shows up solely as a log line inside
`send_message`. -/
theorem c8_counterexample :
    (cycleStep initState deliveryFailInput).state = initState ∧
      (cycleStep initState deliveryFailInput).sent = [approvedHwMsg] ∧
      (cycleStep initState deliveryFailInput).notifyErrors =
        ["Произошла ошибка при отправке сообщения в Телеграмм: Telegram API error"] :=
  ⟨rfl, rfl, rfl⟩

/-- C8, amended: a delivery failure is swallowed inside `send_message` and
merely logged: the resulting loop state and the sequence of send attempts
of any cycle are identical whether delivery fails or succeeds, so no
error-state event, no error notification and no retry arise from it. -/
theorem c8_delivery_failure_invisible (st : LoopState) (f : FetchOutcome)
    (se : Option String) :
    (cycleStep st { fetch := f, sendError := se }).state =
        (cycleStep st { fetch := f, sendError := none }).state ∧
      (cycleStep st { fetch := f, sendError := se }).sent =
        (cycleStep st { fetch := f, sendError := none }).sent := by
  cases hg : get_api_answer f with
  | error e => by_cases h1 : st.step1 <;> simp [cycleStep, hg, h1]
  | ok a =>
      cases hc : check_response a with
      | error e => by_cases h2 : st.step2 <;> simp [cycleStep, hg, hc, h2]
      | ok o =>
          cases o with
          | none => simp [cycleStep, hg, hc]
          | some hw =>
              cases hp : parse_status hw with
              | ok m => simp [cycleStep, hg, hc, hp]
              | error e =>
                  by_cases h3 : st.step3 <;> simp [cycleStep, hg, hc, hp, h3]

/-- C9, counterexample: after a validation failure (flag armed) followed by
a validation *success* with an empty homeworks list, `step_2` is still
armed — the success did not clear it — so a renewed validation failure in
a third cycle is not notified: the three cycles send one message, not the
two the claim requires. -/
theorem c9_counterexample :
    (runState initState [badSchemaInput, emptyOkInput]).step2 = false ∧
      (sentAll initState
          [badSchemaInput, emptyOkInput, badSchemaInput]).length = 1 :=
  ⟨rfl, rfl⟩

/-- C9, amended: a fetch success clears `step_1`, a validation success with
a *non-empty* homeworks list clears `step_2`, and a successful extraction
clears `step_3`; but a validation success with an empty homeworks list
leaves `step_2` exactly as it was, so that site stays armed. -/
theorem c9_error_clearing (st : LoopState) (i : CycleInput) :
    (exceptOk (get_api_answer i.fetch) = true →
        (cycleStep st i).state.step1 = true) ∧
      (∀ a, get_api_answer i.fetch = .ok a → check_response a = .ok none →
        (cycleStep st i).state.step2 = st.step2) ∧
      (∀ a hw, get_api_answer i.fetch = .ok a →
        check_response a = .ok (some hw) →
        (cycleStep st i).state.step2 = true) ∧
      (∀ a hw m, get_api_answer i.fetch = .ok a →
        check_response a = .ok (some hw) → parse_status hw = .ok m →
        (cycleStep st i).state.step3 = true) := by
  refine ⟨?_, ?_, ?_, ?_⟩
  · intro h
    rcases hg : get_api_answer i.fetch with e | a
    · rw [hg] at h
      cases h
    · cases hc : check_response a with
      | error e => by_cases h2 : st.step2 <;> simp [cycleStep, hg, hc, h2]
      | ok o =>
          cases o with
          | none => simp [cycleStep, hg, hc]
          | some hw =>
              cases hp : parse_status hw with
              | ok m => simp [cycleStep, hg, hc, hp]
              | error e =>
                  by_cases h3 : st.step3 <;> simp [cycleStep, hg, hc, hp, h3]
  · intro a hg hc
    simp [cycleStep, hg, hc]
  · intro a hw hg hc
    cases hp : parse_status hw with
    | ok m => simp [cycleStep, hg, hc, hp]
    | error e => by_cases h3 : st.step3 <;> simp [cycleStep, hg, hc, hp, h3]
  · intro a hw m hg hc hp
    simp [cycleStep, hg, hc, hp]

/-- A loop state with the validation site armed. -/
def armedValidateSt : LoopState :=
  { timestamp := 0, step1 := true, step2 := false, step3 := true }

/-- C9, witness: from the armed-validation state, an empty-list success
leaves `step_2` unchanged while a non-empty success clears it. -/
theorem c9_witness :
    (cycleStep armedValidateSt emptyOkInput).state.step2 =
        armedValidateSt.step2 ∧
      (cycleStep armedValidateSt
          (inputOf [hwRec "hw" "approved"])).state.step2 = true :=
  ⟨(c9_error_clearing armedValidateSt emptyOkInput).2.1 (payloadOf []) rfl rfl,
   (c9_error_clearing armedValidateSt (inputOf [hwRec "hw" "approved"])).2.2.1
     (payloadOf [hwRec "hw" "approved"]) (hwRec "hw" "approved") rfl rfl⟩

/-- Every cycle of a trace fetches with the `timestamp` the run started
from: `cycleStep` never mutates it. -/
theorem runTrace_fromDate (inputs : List CycleInput) (st : LoopState) :
    ∀ r ∈ runTrace st inputs, r.fromDate = st.timestamp := by
  induction inputs generalizing st with
  | nil => intro r hr; cases hr
  | cons i rest ih =>
      intro r hr
      simp only [runTrace, List.mem_cons] at hr
      rcases hr with rfl | hr
      · exact (cycleStep_timestamp st i).2
      · rw [ih (cycleStep st i).state r hr, (cycleStep_timestamp st i).1]

/-- C10: in every run the watermark stays at its initial value `0` — every
cycle passes `from_date = 0` to the fetch, however the cycles go. -/
theorem c10_from_date_always_zero (inputs : List CycleInput)
    (r : CycleResult) (hr : r ∈ runTrace initState inputs) : r.fromDate = 0 :=
  runTrace_fromDate inputs initState r hr

/-- C10, witness: the first cycle of a concrete run fetches with
`from_date = 0`. -/
theorem c10_witness : (cycleStep initState badFetchInput).fromDate = 0 :=
  c10_from_date_always_zero [badFetchInput]
    (cycleStep initState badFetchInput) (by simp [runTrace])
